import Mathlib

/-!
Verification of the autocator allocation engine against its specification.

The development shallowly embeds the TypeScript source:

* `src/crypto.ts` — claim-hash computation for batch and multichain compacts
  (`generateBatchClaimHash`, `generateMultichainClaimHash`), including a full
  executable keccak-256;
* `src/validation/structure.ts` — `validateStructure`, `validateExpiration`,
  `validateBatchStructure`;
* `src/validation/allocation.ts` — `validateAllocation`,
  `validateBatchAllocation`, `validateMultichainAllocation`.

External collaborators (the GraphQL indexer, the database, `Date.now`) are
modelled as explicit inputs.  JavaScript strings are modelled as `String`,
`bigint` values as `Nat` (or `Int` where the source manipulates signed
quantities), and thrown exceptions as `Option`/`Except` failures.
-/

set_option linter.unnecessarySeqFocus false

namespace Autocator

/-! ## Keccak-256

Executable keccak-256 (the Ethereum variant: pad10*1 with 0x01 domain byte,
rate 1088), as used by viem's `keccak256`.  Lanes are 64-bit values carried
as `Nat` with explicit reduction modulo `2^64`.  The round function is
unrolled over the 25 lanes so that kernel evaluation stays cheap.
-/

namespace Keccak

def U64 : Nat := 18446744073709551616

def mask64 : Nat := U64 - 1

/-- Rotate a 64-bit lane left by `n` bits. -/
def rotl (x n : Nat) : Nat :=
  ((x <<< n) % U64) ||| (x >>> (64 - n))

/-- The 24 round constants of keccak-f[1600]. -/
def RC : List Nat :=
  [0x0000000000000001, 0x0000000000008082, 0x800000000000808a, 0x8000000080008000,
   0x000000000000808b, 0x0000000080000001, 0x8000000080008081, 0x8000000000008009,
   0x000000000000008a, 0x0000000000000088, 0x0000000080008009, 0x000000008000000a,
   0x000000008000808b, 0x800000000000008b, 0x8000000000008089, 0x8000000000008003,
   0x8000000000008002, 0x8000000000000080, 0x000000000000800a, 0x800000008000000a,
   0x8000000080008081, 0x8000000000008080, 0x0000000080000001, 0x8000000080008008]

/-- One keccak-f round: θ, ρ, π, χ, ι on the 25-lane state, unrolled. -/
def round (s : List Nat) (rc : Nat) : List Nat :=
  match s with
  | [a0, a1, a2, a3, a4, a5, a6, a7, a8, a9, a10, a11, a12, a13, a14, a15, a16, a17, a18, a19, a20, a21, a22, a23, a24] =>
    let c0 := a0 ^^^ a5 ^^^ a10 ^^^ a15 ^^^ a20
    let c1 := a1 ^^^ a6 ^^^ a11 ^^^ a16 ^^^ a21
    let c2 := a2 ^^^ a7 ^^^ a12 ^^^ a17 ^^^ a22
    let c3 := a3 ^^^ a8 ^^^ a13 ^^^ a18 ^^^ a23
    let c4 := a4 ^^^ a9 ^^^ a14 ^^^ a19 ^^^ a24
    let d0 := c4 ^^^ rotl c1 1
    let d1 := c0 ^^^ rotl c2 1
    let d2 := c1 ^^^ rotl c3 1
    let d3 := c2 ^^^ rotl c4 1
    let d4 := c3 ^^^ rotl c0 1
    let t0 := a0 ^^^ d0
    let t1 := a1 ^^^ d1
    let t2 := a2 ^^^ d2
    let t3 := a3 ^^^ d3
    let t4 := a4 ^^^ d4
    let t5 := a5 ^^^ d0
    let t6 := a6 ^^^ d1
    let t7 := a7 ^^^ d2
    let t8 := a8 ^^^ d3
    let t9 := a9 ^^^ d4
    let t10 := a10 ^^^ d0
    let t11 := a11 ^^^ d1
    let t12 := a12 ^^^ d2
    let t13 := a13 ^^^ d3
    let t14 := a14 ^^^ d4
    let t15 := a15 ^^^ d0
    let t16 := a16 ^^^ d1
    let t17 := a17 ^^^ d2
    let t18 := a18 ^^^ d3
    let t19 := a19 ^^^ d4
    let t20 := a20 ^^^ d0
    let t21 := a21 ^^^ d1
    let t22 := a22 ^^^ d2
    let t23 := a23 ^^^ d3
    let t24 := a24 ^^^ d4
    let b0 := t0
    let b1 := rotl t6 44
    let b2 := rotl t12 43
    let b3 := rotl t18 21
    let b4 := rotl t24 14
    let b5 := rotl t3 28
    let b6 := rotl t9 20
    let b7 := rotl t10 3
    let b8 := rotl t16 45
    let b9 := rotl t22 61
    let b10 := rotl t1 1
    let b11 := rotl t7 6
    let b12 := rotl t13 25
    let b13 := rotl t19 8
    let b14 := rotl t20 18
    let b15 := rotl t4 27
    let b16 := rotl t5 36
    let b17 := rotl t11 10
    let b18 := rotl t17 15
    let b19 := rotl t23 56
    let b20 := rotl t2 62
    let b21 := rotl t8 55
    let b22 := rotl t14 39
    let b23 := rotl t15 41
    let b24 := rotl t21 2
    let e0 := (b0 ^^^ ((b1 ^^^ mask64) &&& b2)) ^^^ rc
    let e1 := b1 ^^^ ((b2 ^^^ mask64) &&& b3)
    let e2 := b2 ^^^ ((b3 ^^^ mask64) &&& b4)
    let e3 := b3 ^^^ ((b4 ^^^ mask64) &&& b0)
    let e4 := b4 ^^^ ((b0 ^^^ mask64) &&& b1)
    let e5 := b5 ^^^ ((b6 ^^^ mask64) &&& b7)
    let e6 := b6 ^^^ ((b7 ^^^ mask64) &&& b8)
    let e7 := b7 ^^^ ((b8 ^^^ mask64) &&& b9)
    let e8 := b8 ^^^ ((b9 ^^^ mask64) &&& b5)
    let e9 := b9 ^^^ ((b5 ^^^ mask64) &&& b6)
    let e10 := b10 ^^^ ((b11 ^^^ mask64) &&& b12)
    let e11 := b11 ^^^ ((b12 ^^^ mask64) &&& b13)
    let e12 := b12 ^^^ ((b13 ^^^ mask64) &&& b14)
    let e13 := b13 ^^^ ((b14 ^^^ mask64) &&& b10)
    let e14 := b14 ^^^ ((b10 ^^^ mask64) &&& b11)
    let e15 := b15 ^^^ ((b16 ^^^ mask64) &&& b17)
    let e16 := b16 ^^^ ((b17 ^^^ mask64) &&& b18)
    let e17 := b17 ^^^ ((b18 ^^^ mask64) &&& b19)
    let e18 := b18 ^^^ ((b19 ^^^ mask64) &&& b15)
    let e19 := b19 ^^^ ((b15 ^^^ mask64) &&& b16)
    let e20 := b20 ^^^ ((b21 ^^^ mask64) &&& b22)
    let e21 := b21 ^^^ ((b22 ^^^ mask64) &&& b23)
    let e22 := b22 ^^^ ((b23 ^^^ mask64) &&& b24)
    let e23 := b23 ^^^ ((b24 ^^^ mask64) &&& b20)
    let e24 := b24 ^^^ ((b20 ^^^ mask64) &&& b21)
    [e0, e1, e2, e3, e4, e5, e6, e7, e8, e9, e10, e11, e12, e13, e14, e15, e16, e17, e18, e19, e20, e21, e22, e23, e24]
  | _ => s

def keccakF (s : List Nat) : List Nat := RC.foldl round s

/-- Split a 136-byte rate block into 17 little-endian 64-bit lanes. -/
def blockLanes : List Nat → List Nat
  | b0 :: b1 :: b2 :: b3 :: b4 :: b5 :: b6 :: b7 :: rest =>
    (b0 ||| (b1 <<< 8) ||| (b2 <<< 16) ||| (b3 <<< 24) ||| (b4 <<< 32) |||
     (b5 <<< 40) ||| (b6 <<< 48) ||| (b7 <<< 56)) :: blockLanes rest
  | _ => []

def absorbBlock (s : List Nat) (block : List Nat) : List Nat :=
  keccakF (List.zipWith (· ^^^ ·) s (blockLanes block ++ [0, 0, 0, 0, 0, 0, 0, 0]))

def absorbAux : Nat → List Nat → List Nat → List Nat
  | 0, s, _ => s
  | n + 1, s, bytes => absorbAux n (absorbBlock s (bytes.take 136)) (bytes.drop 136)

def absorb (s : List Nat) (bytes : List Nat) : List Nat :=
  absorbAux (bytes.length / 136) s bytes

/-- Keccak pad10*1 with the 0x01 domain separation byte (the pre-NIST
padding Ethereum uses). -/
def pad (m : List Nat) : List Nat :=
  let r := 136 - m.length % 136
  if r = 1 then m ++ [0x81]
  else m ++ 0x01 :: List.replicate (r - 2) 0 ++ [0x80]

def lane (s : List Nat) (i : Nat) : Nat := s.getD i 0

def laneBytes (x : Nat) : List Nat :=
  [x % 256, (x >>> 8) % 256, (x >>> 16) % 256, (x >>> 24) % 256,
   (x >>> 32) % 256, (x >>> 40) % 256, (x >>> 48) % 256, (x >>> 56) % 256]

def squeeze (s : List Nat) : List Nat :=
  laneBytes (lane s 0) ++ laneBytes (lane s 1) ++ laneBytes (lane s 2) ++ laneBytes (lane s 3)

/-- keccak-256 of a byte string, as its 32 digest bytes. -/
def keccak256 (m : List Nat) : List Nat :=
  squeeze (absorb (List.replicate 25 0) (pad m))

theorem keccak256_length (m : List Nat) : (keccak256 m).length = 32 := by
  simp [keccak256, squeeze, laneBytes]

end Keccak

open Keccak

/-! ## JavaScript string and number primitives

The TypeScript source manipulates hex/decimal strings through `BigInt(...)`,
`String.prototype.startsWith`, regular expressions and viem's `getAddress`.
These are modelled over `String.data` (the character list) so that proofs can
compute.  `BigInt(s)` throwing is modelled as `none`; signed, whitespace and
binary/octal `BigInt` forms never occur in the inputs validated by this
service and are also mapped to `none`.
-/

def isDecDigit (c : Char) : Bool := '0' ≤ c && c ≤ '9'

def isHexDigitCh (c : Char) : Bool :=
  ('0' ≤ c && c ≤ '9') || ('a' ≤ c && c ≤ 'f') || ('A' ≤ c && c ≤ 'F')

def hexDigitVal (c : Char) : Nat :=
  if '0' ≤ c && c ≤ '9' then c.toNat - 48
  else if 'a' ≤ c && c ≤ 'f' then c.toNat - 87
  else c.toNat - 55

def decDigitsVal (l : List Char) : Nat :=
  l.foldl (fun acc c => acc * 10 + (c.toNat - 48)) 0

def hexDigitsVal (l : List Char) : Nat :=
  l.foldl (fun acc c => acc * 16 + hexDigitVal c) 0

/-- `s.startsWith('0x')`, computed on the character list. -/
def startsWith0x (s : String) : Bool :=
  match s.data with
  | '0' :: 'x' :: _ => true
  | _ => false

/-- JavaScript `BigInt(s)` for the string forms this service feeds it:
`0x`-prefixed hex, plain decimal, and the empty string (which JavaScript
maps to `0n`).  Anything else throws, modelled as `none`. -/
def jsBigInt? (s : String) : Option Nat :=
  match s.data with
  | [] => some 0
  | '0' :: 'x' :: rest =>
      if rest ≠ [] && rest.all isHexDigitCh then some (hexDigitsVal rest) else none
  | l => if l.all isDecDigit then some (decDigitsVal l) else none

/-- viem `getAddress`: validates `^0x[0-9a-fA-F]{40}$` and returns the
EIP-55 checksummed string.  Checksumming only changes letter case, never the
160-bit value, so the model returns the numeric value used by the ABI
encoder; `none` models the viem `InvalidAddressError` throw. -/
def getAddress? (s : String) : Option Nat :=
  match s.data with
  | '0' :: 'x' :: rest =>
      if rest.length = 40 && rest.all isHexDigitCh then some (hexDigitsVal rest) else none
  | _ => none

def hexPairsToBytes : List Char → List Nat
  | a :: b :: rest => (16 * hexDigitVal a + hexDigitVal b) :: hexPairsToBytes rest
  | _ => []

/-- A `0x`-prefixed hex string of exactly `n` bytes, as its byte list;
`none` models viem's size/format errors for `bytesN` values. -/
def hexBytes? (s : String) (n : Nat) : Option (List Nat) :=
  match s.data with
  | '0' :: 'x' :: rest =>
      if rest.length = 2 * n && rest.all isHexDigitCh then some (hexPairsToBytes rest)
      else none
  | _ => none

/-- The regex `/^0x[0-9a-fA-F]{24}$/` used on lock tags. -/
def isLockTagFormat (s : String) : Bool :=
  match s.data with
  | '0' :: 'x' :: rest => rest.length = 24 && rest.all isHexDigitCh
  | _ => false

/-- UTF-8 bytes of the (ASCII) type strings fed to `encodePacked(['string'])`. -/
def strBytes (s : String) : List Nat := s.data.map Char.toNat

/-! ## ABI encoding

`encodeAbiParameters` for the static-head shapes the source uses: every value
is one 32-byte word (`uint256`/`bytes32` big-endian, `address` left-padded,
`bytes12` right-padded), and the two dynamic shapes (`tuple[]` of a static
tuple, `bytes32[]`) are a `0x20` offset word, a length word, and the
concatenated member words. -/

def U160 : Nat := 1461501637330902918203684832716283019655932542976

def U256 : Nat :=
  115792089237316195423570985008687907853269984665640564039457584007913129639936

/-- Big-endian bytes of `x`, `n` bytes wide. -/
def beBytes : Nat → Nat → List Nat
  | 0, _ => []
  | n + 1, x => beBytes n (x >>> 8) ++ [x % 256]

/-- One ABI word: 32 big-endian bytes. -/
def word256 (x : Nat) : List Nat := beBytes 32 x

/-- A `bytes12` value (12 bytes) as an ABI word: right-padded with zeros. -/
def bytes12Word (b : List Nat) : List Nat := b ++ List.replicate 20 0

/-! ## Compact message types (`src/validation/types.ts`)

`bigint` fields of validated messages are `Nat`; fields the source keeps as
strings stay `String`. -/

structure Lock where
  lockTag : String
  token : String
  amount : String
deriving DecidableEq, Repr

structure CompactMessage where
  arbiter : String
  sponsor : String
  nonce : Option String
  expires : String
  id : String
  amount : String
  witnessTypeString : Option String
  witnessHash : Option String
deriving DecidableEq, Repr

structure BatchCompactMessage where
  arbiter : String
  sponsor : String
  nonce : Option String
  expires : String
  commitments : List Lock
  witnessTypeString : Option String
  witnessHash : Option String
deriving DecidableEq, Repr

structure ValidatedCompactMessage where
  arbiter : String
  sponsor : String
  nonce : Nat
  expires : Nat
  id : Nat
  amount : String
  witnessTypeString : Option String
  witnessHash : Option String
deriving DecidableEq, Repr

structure ValidatedBatchCompactMessage where
  arbiter : String
  sponsor : String
  nonce : Nat
  expires : Nat
  commitments : List Lock
  witnessTypeString : Option String
  witnessHash : Option String
deriving DecidableEq, Repr

structure MultichainElement where
  arbiter : String
  chainId : Nat
  commitments : List Lock
  witnessHash : String
deriving DecidableEq, Repr

structure ValidatedMultichainCompactMessage where
  sponsor : String
  nonce : Nat
  expires : Nat
  elements : List MultichainElement
  witnessTypeString : String
deriving DecidableEq, Repr

/-! ## Claim-hash computation (`src/crypto.ts`)

`generateBatchClaimHash` sorts the commitments by
`lockId = (BigInt(lockTag) << 160) | BigInt(token)` with a JavaScript
comparator, prepends a missing `0x` to each lockTag when encoding, and hashes
`(typeHash, arbiter, sponsor, nonce, expires, commitmentsHash[, witnessHash])`.
A thrown exception (unparsable comparator key, bad hex, out-of-range word) is
`none`.  Since every element of a ≥2-element array is parsed by the
comparator, the sort throws exactly when some key fails to parse and the
array has at least two entries. -/

/-- `(BigInt(lockTag) << 160) | BigInt(token)` — the comparator key. -/
def lockIdOfStrings? (lockTag token : String) : Option Nat := do
  let t ← jsBigInt? lockTag
  let tok ← jsBigInt? token
  pure ((t <<< 160) ||| tok)

/-- Comparator key with JavaScript laziness flattened out; only used on
commitments whose key parses (`generateBatchClaimHash` fails first
otherwise). -/
def sortKey (l : Lock) : Nat := (lockIdOfStrings? l.lockTag l.token).getD 0

/-- Stable insertion of one commitment into a key-sorted list: ties keep the
original order, as the comparator returns 0 and JavaScript `sort` is
stable. -/
def insertLock (x : Lock) : List Lock → List Lock
  | [] => [x]
  | y :: ys => if sortKey x < sortKey y then x :: y :: ys else y :: insertLock x ys

/-- `[...commitments].sort((a, b) => aId < bId ? -1 : aId > bId ? 1 : 0)`
as a stable insertion sort on the lockId key. -/
def sortCommitments : List Lock → List Lock
  | [] => []
  | x :: xs => insertLock x (sortCommitments xs)

/-- One commitment of the batch path as its three ABI words.  The source
prepends `0x` when the lockTag is supplied without it, then encodes
`(bytes12 lockTag, address token, uint256 amount)`. -/
def encodeCommitmentBatch? (l : Lock) : Option (List Nat) := do
  let tag := if startsWith0x l.lockTag then l.lockTag else "0x" ++ l.lockTag
  let tagBytes ← hexBytes? tag 12
  let tokenVal ← getAddress? l.token
  let amt ← jsBigInt? l.amount
  if amt < U256 then pure (bytes12Word tagBytes ++ word256 tokenVal ++ word256 amt)
  else none

/-- One commitment of the multichain path: same encoding but the lockTag is
used as given, with no `0x` repair. -/
def encodeCommitmentMultichain? (l : Lock) : Option (List Nat) := do
  let tagBytes ← hexBytes? l.lockTag 12
  let tokenVal ← getAddress? l.token
  let amt ← jsBigInt? l.amount
  if amt < U256 then pure (bytes12Word tagBytes ++ word256 tokenVal ++ word256 amt)
  else none

/-- ABI encoding of the `tuple[]` commitments parameter: offset word,
length word, then the member words. -/
def commitmentsAbi (n : Nat) (encs : List (List Nat)) : List Nat :=
  word256 32 ++ word256 n ++ encs.flatten

/-- JavaScript falsiness of `string | null`: `null` and `''`. -/
def jsFalsyOpt : Option String → Bool
  | none => true
  | some s => s = ""

def batchTypeStringNoWitness : String :=
  "BatchCompact(address arbiter,address sponsor,uint256 nonce,uint256 expires,Lock[] commitments)Lock(bytes12 lockTag,address token,uint256 amount)"

def batchTypeStringWitness (wts : String) : String :=
  "BatchCompact(address arbiter,address sponsor,uint256 nonce,uint256 expires,Lock[] commitments,Mandate mandate)Lock(bytes12 lockTag,address token,uint256 amount)Mandate(" ++ wts ++ ")"

/-- The hash assembly of `generateBatchClaimHash` after the sort; depends on
the compact only through the fields other than `commitments`. -/
def batchHashFromSorted (arbiter sponsor : String) (nonce expires : Nat)
    (wts wh : Option String) (sorted : List Lock) : Option (List Nat) :=
  match getAddress? arbiter, getAddress? sponsor, sorted.mapM encodeCommitmentBatch? with
  | some arb, some spon, some encs =>
    if nonce < U256 && expires < U256 then
      let commitmentsHash := keccak256 (commitmentsAbi sorted.length encs)
      if jsFalsyOpt wts || jsFalsyOpt wh then
        let typeHash := keccak256 (strBytes batchTypeStringNoWitness)
        some (keccak256 (typeHash ++ word256 arb ++ word256 spon ++ word256 nonce ++
          word256 expires ++ commitmentsHash))
      else
        match wts, wh with
        | some ts, some h =>
          match hexBytes? h 32 with
          | some whBytes =>
            let typeHash := keccak256 (strBytes (batchTypeStringWitness ts))
            some (keccak256 (typeHash ++ word256 arb ++ word256 spon ++ word256 nonce ++
              word256 expires ++ commitmentsHash ++ whBytes))
          | none => none
        | _, _ => none
    else none
  | _, _, _ => none

/-- `generateBatchClaimHash` (src/crypto.ts:170-279). -/
def generateBatchClaimHash (c : ValidatedBatchCompactMessage) : Option (List Nat) :=
  if c.commitments.length ≥ 2 &&
      c.commitments.any (fun l => (lockIdOfStrings? l.lockTag l.token).isNone) then
    none
  else
    batchHashFromSorted c.arbiter c.sponsor c.nonce c.expires c.witnessTypeString
      c.witnessHash (sortCommitments c.commitments)

/-- The text the element type string embeds for the witness type:
JavaScript `'Mandate(' + witnessTypeString + ')'` renders an absent value as
the literal string `undefined`. -/
def mandateArgElement : Option String → String
  | some s => s
  | none => "undefined"

/-- The text the root type string embeds for the witness type:
`witnessTypeString || 'bytes data'` falls back on absent *and* empty
values. -/
def mandateArgRoot (w : Option String) : String :=
  match w with
  | some s => if s = "" then "bytes data" else s
  | none => "bytes data"

def elementTypeStringPre : String :=
  "Element(address arbiter,uint256 chainId,Lock[] commitments,Mandate mandate)Lock(bytes12 lockTag,address token,uint256 amount)Mandate("

def rootTypeStringPre : String :=
  "MultichainCompact(address sponsor,uint256 nonce,uint256 expires,Element[] elements)Element(address arbiter,uint256 chainId,Lock[] commitments,Mandate mandate)Lock(bytes12 lockTag,address token,uint256 amount)Mandate("

def elementTypeStringOf (w : Option String) : String :=
  elementTypeStringPre ++ mandateArgElement w ++ ")"

def rootTypeStringOf (w : Option String) : String :=
  rootTypeStringPre ++ mandateArgRoot w ++ ")"

/-- Hash of one multichain element: sorted commitments hash, then
`(elementTypeHash, arbiter, chainId, commitmentsHash, witnessHash)`. -/
def elementHash? (eth : List Nat) (e : MultichainElement) : Option (List Nat) :=
  if e.commitments.length ≥ 2 &&
      e.commitments.any (fun l => (lockIdOfStrings? l.lockTag l.token).isNone) then
    none
  else
    match (sortCommitments e.commitments).mapM encodeCommitmentMultichain?,
        getAddress? e.arbiter, hexBytes? e.witnessHash 32 with
    | some encs, some arb, some whBytes =>
      if e.chainId < U256 then
        let ch := keccak256 (commitmentsAbi (sortCommitments e.commitments).length encs)
        some (keccak256 (eth ++ word256 arb ++ word256 e.chainId ++ ch ++ whBytes))
      else none
    | _, _, _ => none

set_option linter.unusedVariables false in
/-- `generateMultichainClaimHash` (src/crypto.ts:282-400).  The element list
is hashed in the order given; `notarizedChainId` is accepted but unused, as
in the source. -/
def generateMultichainClaimHash (c : ValidatedMultichainCompactMessage)
    (notarizedChainId : Nat) (w : Option String) : Option (List Nat) :=
  match getAddress? c.sponsor with
  | none => none
  | some spon =>
    let eth := keccak256 (strBytes (elementTypeStringOf w))
    match c.elements.mapM (elementHash? eth) with
    | none => none
    | some ehs =>
      let elementsHash := keccak256 (word256 32 ++ word256 ehs.length ++ ehs.flatten)
      let typeHash := keccak256 (strBytes (rootTypeStringOf w))
      if c.nonce < U256 && c.expires < U256 then
        some (keccak256 (typeHash ++ word256 spon ++ word256 c.nonce ++
          word256 c.expires ++ elementsHash))
      else none

/-! ## Validation results and errors

The source returns `{isValid, error?}` with template strings; errors are
modelled as constructors carrying the interpolated values. -/

inductive VErr where
  /-- "Invalid arbiter address: ..." / "Invalid address: ..." -/
  | invalidAddress : VErr
  /-- a `toPositiveBigInt` conversion failure for the named field -/
  | parseFailure (field : String) : VErr
  /-- "Nonce is required. Use /suggested-nonce/:chainId to get a valid nonce." -/
  | nonceRequired : VErr
  /-- "Witness type and hash must both be present or both be null" -/
  | witnessMismatch : VErr
  /-- "Compact has expired" -/
  | expired : VErr
  /-- "Expiration must be within 2 hours" -/
  | expirationTooFar : VErr
  /-- "BatchCompact must have at least one commitment" -/
  | noCommitments : VErr
  /-- "Invalid lock tag format: ..." -/
  | invalidLockTagFormat (lockTag : String) : VErr
  /-- "Invalid token address: ..." -/
  | invalidTokenAddress (token : String) : VErr
  /-- "Resource lock not found" -/
  | resourceLockNotFound : VErr
  /-- "Resource lock has forced withdrawals enabled" -/
  | forcedWithdrawal : VErr
  /-- "Invalid allocator ID" (single path; also covers a missing chain config) -/
  | invalidAllocatorId : VErr
  /-- "Insufficient allocatable balance (have ..., need ...)" -/
  | insufficientBalance (haveAmt needAmt : Int) : VErr
  /-- "Chain configuration not found" (batch/multichain paths) -/
  | chainConfigNotFound : VErr
  /-- "Invalid allocator ID for commitment with lockTag ..." -/
  | invalidAllocatorFor (lockTag : String) : VErr
  /-- "Resource lock not found for commitment ..." -/
  | resourceLockNotFoundFor (lockTag : String) : VErr
  /-- "Resource lock ... has forced withdrawals enabled" -/
  | forcedWithdrawalFor (lockTag : String) : VErr
  /-- "Insufficient allocatable balance for commitment ... (have ..., need ...)" -/
  | insufficientBalanceFor (lockTag : String) (haveAmt needAmt : Int) : VErr
  /-- "No elements found for chain ..." -/
  | noElementsForChain (chainId : String) : VErr
  /-- a catch-all `... validation error: ...` wrapper around a thrown exception -/
  | allocationError : VErr
deriving DecidableEq, Repr

structure ValidationResult where
  isValid : Bool
  error : Option VErr
deriving DecidableEq, Repr

def vOk : ValidationResult := ⟨true, none⟩

def vFail (e : VErr) : ValidationResult := ⟨false, some e⟩

/-! ## Structural validation (`src/validation/structure.ts`) -/

/-- Modelled from the spec: `toPositiveBigInt` lives in `src/utils/encoding`,
which is not among the provided sources.  Per §4.3 of the spec,
"amounts/nonces/ids/expires parse as positive uint256 from decimal or `0x…`
hex"; failure throws, caught by the validator. -/
def toPositiveBigInt? (s : String) : Option Nat := do
  let n ← jsBigInt? s
  if 0 < n && n < U256 then some n else none

/-- `validateExpiration` (structure.ts:463-482).  `Date.now()` is the
explicit `now` input, in unix seconds. -/
def validateExpiration (now expires : Nat) : ValidationResult :=
  if expires ≤ now then vFail .expired
  else if expires > now + 7200 then vFail .expirationTooFar
  else vOk

/-- `validateStructure` (structure.ts:384-461): addresses, field conversions,
nonce presence, then witness-pair consistency. -/
def validateStructure (c : CompactMessage) :
    ValidationResult × Option ValidatedCompactMessage :=
  if (getAddress? c.arbiter).isNone || (getAddress? c.sponsor).isNone then
    (vFail .invalidAddress, none)
  else
    match toPositiveBigInt? c.id with
    | none => (vFail (.parseFailure "id"), none)
    | some id =>
      match toPositiveBigInt? c.expires with
      | none => (vFail (.parseFailure "expires"), none)
      | some expires =>
        match toPositiveBigInt? c.amount with
        | none => (vFail (.parseFailure "amount"), none)
        | some amount =>
          match c.nonce with
          | none => (vFail .nonceRequired, none)
          | some ns =>
            match toPositiveBigInt? ns with
            | none => (vFail (.parseFailure "nonce"), none)
            | some nonce =>
              let vc : ValidatedCompactMessage :=
                ⟨c.arbiter, c.sponsor, nonce, expires, id, Nat.repr amount,
                  c.witnessTypeString, c.witnessHash⟩
              if (vc.witnessTypeString.isNone && vc.witnessHash.isSome) ||
                  (vc.witnessTypeString.isSome && vc.witnessHash.isNone) then
                (vFail .witnessMismatch, none)
              else
                (vOk, some vc)

/-- The per-commitment loop of `validateBatchStructure` (structure.ts:526-557):
lock tag format, token address, positive amount. -/
def checkBatchLocks : List Lock → Except VErr (List Lock)
  | [] => .ok []
  | l :: rest =>
    if !isLockTagFormat l.lockTag then .error (.invalidLockTagFormat l.lockTag)
    else if (getAddress? l.token).isNone then .error (.invalidTokenAddress l.token)
    else
      match toPositiveBigInt? l.amount with
      | none => .error (.parseFailure "commitment amount")
      | some amt =>
        match checkBatchLocks rest with
        | .error e => .error e
        | .ok v => .ok (⟨l.lockTag, l.token, Nat.repr amt⟩ :: v)

/-- `validateBatchStructure` (structure.ts:485-592). -/
def validateBatchStructure (c : BatchCompactMessage) :
    ValidationResult × Option ValidatedBatchCompactMessage :=
  if (getAddress? c.arbiter).isNone || (getAddress? c.sponsor).isNone then
    (vFail .invalidAddress, none)
  else
    match c.nonce with
    | none => (vFail .nonceRequired, none)
    | some ns =>
      match toPositiveBigInt? ns with
      | none => (vFail (.parseFailure "nonce"), none)
      | some nonce =>
        match toPositiveBigInt? c.expires with
        | none => (vFail (.parseFailure "expires"), none)
        | some expires =>
          if c.commitments.isEmpty then (vFail .noCommitments, none)
          else
            match checkBatchLocks c.commitments with
            | .error e => (vFail e, none)
            | .ok validated =>
              let vc : ValidatedBatchCompactMessage :=
                ⟨c.arbiter, c.sponsor, nonce, expires, validated,
                  c.witnessTypeString, c.witnessHash⟩
              if (vc.witnessTypeString.isNone && vc.witnessHash.isSome) ||
                  (vc.witnessTypeString.isSome && vc.witnessHash.isNone) then
                (vFail .witnessMismatch, none)
              else
                (vOk, some vc)

/-! ## Allocation validation (`src/validation/allocation.ts`)

The GraphQL indexer response, the cached supported-chains list and the
database's allocated-balance sum are explicit inputs. -/

structure ResourceLock where
  withdrawalStatus : Int
  balance : Int
deriving DecidableEq, Repr

structure IndexerResponse where
  resourceLocks : List ResourceLock
  accountDeltas : List Int
  claims : List String
deriving DecidableEq, Repr

structure ChainConfig where
  chainId : String
  allocatorId : Nat
deriving DecidableEq, Repr

/-- `(lockTagValue << 160) | tokenValue` (`buildLockId`, allocation.ts:13-18),
on already-parsed values. -/
def buildLockId (tagVal tokenVal : Nat) : Nat := (tagVal <<< 160) ||| tokenVal

def mask92 : Nat := (1 <<< 92) - 1

/-- Allocator-id extraction of the batch and multichain paths:
`(BigInt(lockTag) >> 4) & ((1 << 92) - 1)`. -/
def allocatorIdFromLockTag (tagVal : Nat) : Nat := (tagVal >>> 4) &&& mask92

/-- Allocator-id extraction of the single-compact path:
`(compact.id >> 160) & ((1 << 92) - 1)` — the low 92 bits of the lock tag,
with no shift by 4. -/
def allocatorIdFromCompactId (id : Nat) : Nat := (id >>> 160) &&& mask92

/-- `getCachedSupportedChains()?.find((chain) => chain.chainId === chainId)`. -/
def findChainConfig (chains : Option (List ChainConfig)) (chainId : String) :
    Option ChainConfig :=
  (chains.getD []).find? (fun cfg => cfg.chainId = chainId)

/-- `max(0, balance − pending)` as the source writes it:
`balance > pending ? balance - pending : 0`. -/
def allocatableBalance (balance pending : Int) : Int :=
  if balance > pending then balance - pending else 0

structure SingleAllocationContext where
  response : IndexerResponse
  chains : Option (List ChainConfig)
  /-- result of `getAllocatedBalance` (src/balance, a database sum over
  stored commitments minus settled claims), supplied as an input -/
  allocatedBalance : Int
deriving Repr

/-- `validateAllocation` (allocation.ts:20-103). -/
def validateAllocation (c : ValidatedCompactMessage) (chainId : String)
    (ctx : SingleAllocationContext) : ValidationResult :=
  let allocatorId := allocatorIdFromCompactId c.id
  match ctx.response.resourceLocks.head? with
  | none => vFail .resourceLockNotFound
  | some rl =>
    if rl.withdrawalStatus ≠ 0 then vFail .forcedWithdrawal
    else
      match findChainConfig ctx.chains chainId with
      | none => vFail .invalidAllocatorId
      | some cfg =>
        if cfg.allocatorId ≠ allocatorId then vFail .invalidAllocatorId
        else
          let pending := ctx.response.accountDeltas.sum
          let allocatable := allocatableBalance rl.balance pending
          match jsBigInt? c.amount with
          | none => vFail .allocationError
          | some amt =>
            let totalNeeded := ctx.allocatedBalance + (amt : Int)
            if allocatable < totalNeeded then
              vFail (.insufficientBalance allocatable totalNeeded)
            else vOk

structure LockAllocationContext where
  chains : Option (List ChainConfig)
  /-- `getCompactDetails` per lockId -/
  response : Nat → IndexerResponse
  /-- `getAllocatedBalance` per lockId -/
  allocatedBalance : Nat → Int

/-- The per-commitment body shared by the batch and multichain loops
(allocation.ts:122-194 and 238-310): allocator id, resource lock, forced
withdrawal, then the balance comparison. -/
def checkLockAllocation (cfg : ChainConfig) (ctx : LockAllocationContext)
    (l : Lock) : ValidationResult :=
  match jsBigInt? l.lockTag, jsBigInt? l.token with
  | some tagVal, some tokenVal =>
    let lockId := buildLockId tagVal tokenVal
    if cfg.allocatorId ≠ allocatorIdFromLockTag tagVal then
      vFail (.invalidAllocatorFor l.lockTag)
    else
      match (ctx.response lockId).resourceLocks.head? with
      | none => vFail (.resourceLockNotFoundFor l.lockTag)
      | some rl =>
        if rl.withdrawalStatus ≠ 0 then vFail (.forcedWithdrawalFor l.lockTag)
        else
          let pending := (ctx.response lockId).accountDeltas.sum
          let allocatable := allocatableBalance rl.balance pending
          match jsBigInt? l.amount with
          | none => vFail .allocationError
          | some amt =>
            let totalNeeded := ctx.allocatedBalance lockId + (amt : Int)
            if allocatable < totalNeeded then
              vFail (.insufficientBalanceFor l.lockTag allocatable totalNeeded)
            else vOk
  | _, _ => vFail .allocationError

def checkLocksAllocation (cfg : ChainConfig) (ctx : LockAllocationContext) :
    List Lock → ValidationResult
  | [] => vOk
  | l :: rest =>
    let r := checkLockAllocation cfg ctx l
    if r.isValid then checkLocksAllocation cfg ctx rest else r

/-- `validateBatchAllocation` (allocation.ts:106-205). -/
def validateBatchAllocation (c : ValidatedBatchCompactMessage) (chainId : String)
    (ctx : LockAllocationContext) : ValidationResult :=
  match findChainConfig ctx.chains chainId with
  | none => vFail .chainConfigNotFound
  | some cfg => checkLocksAllocation cfg ctx c.commitments

def checkElementsAllocation (cfg : ChainConfig) (ctx : LockAllocationContext) :
    List MultichainElement → ValidationResult
  | [] => vOk
  | e :: rest =>
    let r := checkLocksAllocation cfg ctx e.commitments
    if r.isValid then checkElementsAllocation cfg ctx rest else r

/-- `validateMultichainAllocation` (allocation.ts:208-322): chain config,
then the membership filter `elements.filter(e => e.chainId === BigInt(chainId))`,
then the per-element commitment checks. -/
def validateMultichainAllocation (c : ValidatedMultichainCompactMessage)
    (chainId : String) (ctx : LockAllocationContext) : ValidationResult :=
  match findChainConfig ctx.chains chainId with
  | none => vFail .chainConfigNotFound
  | some cfg =>
    match jsBigInt? chainId with
    | none => vFail .allocationError
    | some cid =>
      let currentChainElements := c.elements.filter (fun e => e.chainId = cid)
      if currentChainElements.isEmpty then vFail (.noElementsForChain chainId)
      else checkElementsAllocation cfg ctx currentChainElements

/-! ## Concrete inputs used by counterexamples and witnesses -/

def mcElemA : MultichainElement :=
  { arbiter := "0x0000000000000000000000000000000000000001"
    chainId := 10
    commitments := [⟨"0x000000000000000000000001",
      "0x0000000000000000000000000000000000000003", "1000"⟩]
    witnessHash := "0x1111111111111111111111111111111111111111111111111111111111111111" }

def mcElemB : MultichainElement :=
  { arbiter := "0x0000000000000000000000000000000000000001"
    chainId := 137
    commitments := [⟨"0x000000000000000000000002",
      "0x0000000000000000000000000000000000000004", "2000"⟩]
    witnessHash := "0x2222222222222222222222222222222222222222222222222222222222222222" }

def mcAB : ValidatedMultichainCompactMessage :=
  { sponsor := "0x0000000000000000000000000000000000000002"
    nonce := 1
    expires := 1700000000
    elements := [mcElemA, mcElemB]
    witnessTypeString := "uint256 minAmount" }

def mcBA : ValidatedMultichainCompactMessage :=
  { mcAB with elements := [mcElemB, mcElemA] }

def lockA : Lock :=
  ⟨"0x000000000000000000000010", "0x0000000000000000000000000000000000000001", "1"⟩

def lockBPrefixed : Lock :=
  ⟨"0x000000000000000000000011", "0x0000000000000000000000000000000000000002", "2"⟩

def lockBBare : Lock :=
  { lockBPrefixed with lockTag := "000000000000000000000011" }

def batchPrefixed : ValidatedBatchCompactMessage :=
  { arbiter := "0x0000000000000000000000000000000000000001"
    sponsor := "0x0000000000000000000000000000000000000002"
    nonce := 1
    expires := 1700000000
    commitments := [lockA, lockBPrefixed]
    witnessTypeString := none
    witnessHash := none }

def batchMixed : ValidatedBatchCompactMessage :=
  { batchPrefixed with commitments := [lockA, lockBBare] }

def lockDupA : Lock :=
  ⟨"0x000000000000000000000001", "0x0000000000000000000000000000000000000003", "5"⟩

def lockDupB : Lock :=
  ⟨"0x000000000000000000000001", "0x0000000000000000000000000000000000000003", "7"⟩

def rawBatchDup : BatchCompactMessage :=
  { arbiter := "0x0000000000000000000000000000000000000001"
    sponsor := "0x0000000000000000000000000000000000000002"
    nonce := some "1"
    expires := "9999"
    commitments := [lockDupA, lockDupB]
    witnessTypeString := none
    witnessHash := none }

def batchDup : ValidatedBatchCompactMessage :=
  { arbiter := "0x0000000000000000000000000000000000000001"
    sponsor := "0x0000000000000000000000000000000000000002"
    nonce := 1
    expires := 9999
    commitments := [lockDupA, lockDupB]
    witnessTypeString := none
    witnessHash := none }

/-- A single compact whose lock tag (top 96 bits of the id) is `16 = 0x10`:
under the single-path extraction the allocator id is `16`, under the
batch-path `(lockTag >> 4)` extraction it would be `1`. -/
def singleShiftCompact : ValidatedCompactMessage :=
  { arbiter := "0x0000000000000000000000000000000000000001"
    sponsor := "0x0000000000000000000000000000000000000002"
    nonce := 1
    expires := 9999
    id := (16 <<< 160) ||| 5
    amount := "1"
    witnessTypeString := none
    witnessHash := none }

def singleShiftContext : SingleAllocationContext :=
  { response := ⟨[⟨0, 1000000⟩], [], []⟩
    chains := some [⟨"10", 16⟩]
    allocatedBalance := 0 }

def lockMatch : Lock :=
  ⟨"0x000000000000000000000100", "0x0000000000000000000000000000000000000003", "5"⟩

def batchAllocCompact : ValidatedBatchCompactMessage :=
  { arbiter := "0x0000000000000000000000000000000000000001"
    sponsor := "0x0000000000000000000000000000000000000002"
    nonce := 1
    expires := 9999
    commitments := [lockMatch]
    witnessTypeString := none
    witnessHash := none }

def mcAllocElement : MultichainElement :=
  { arbiter := "0x0000000000000000000000000000000000000001"
    chainId := 10
    commitments := [lockMatch]
    witnessHash := "0x1111111111111111111111111111111111111111111111111111111111111111" }

def mcAllocCompact : ValidatedMultichainCompactMessage :=
  { sponsor := "0x0000000000000000000000000000000000000002"
    nonce := 1
    expires := 9999
    elements := [mcAllocElement]
    witnessTypeString := "uint256 minAmount" }

def mcOnly137 : ValidatedMultichainCompactMessage :=
  { mcAllocCompact with elements := [mcElemB] }

def lockCtx16 : LockAllocationContext :=
  { chains := some [⟨"10", 16⟩]
    response := fun _ => ⟨[⟨0, 1000000000⟩], [], []⟩
    allocatedBalance := fun _ => 0 }

def cm7ok : CompactMessage :=
  { arbiter := "0x0000000000000000000000000000000000000001"
    sponsor := "0x0000000000000000000000000000000000000002"
    nonce := some "1"
    expires := "100"
    id := "5"
    amount := "10"
    witnessTypeString := none
    witnessHash := none }

def cm7bad : CompactMessage :=
  { cm7ok with witnessTypeString := some "bytes32 witnessArg" }

def cb7ok : BatchCompactMessage :=
  { arbiter := "0x0000000000000000000000000000000000000001"
    sponsor := "0x0000000000000000000000000000000000000002"
    nonce := some "1"
    expires := "100"
    commitments := [lockDupA]
    witnessTypeString := none
    witnessHash := none }

def cb7bad : BatchCompactMessage :=
  { cb7ok with
    witnessHash :=
      some "0x0000000000000000000000000000000000000000000000000000000000000001" }

def batchSingle : ValidatedBatchCompactMessage :=
  { batchPrefixed with commitments := [lockBPrefixed] }

/-! ## Helper lemmas -/

theorem allocatableBalance_eq_max (balance pending : Int) :
    allocatableBalance balance pending = max 0 (balance - pending) := by
  unfold allocatableBalance
  split <;> omega

/-! ## C6 -/

/-- C6: `validateExpiration` accepts exactly the window `now < expires ≤ now + 7200`:
`expires ≤ now` is the expired error, `expires > now + 7200` the two-hour
error, and the boundary `expires = now + 7200` is accepted. -/
theorem expiration_window (now expires : Nat) :
    (expires ≤ now → validateExpiration now expires = vFail .expired) ∧
    (expires > now + 7200 → validateExpiration now expires = vFail .expirationTooFar) ∧
    (now < expires → expires ≤ now + 7200 → validateExpiration now expires = vOk) ∧
    validateExpiration now (now + 7200) = vOk := by
  unfold validateExpiration
  refine ⟨fun h => ?_, fun h => ?_, fun h₁ h₂ => ?_, ?_⟩
  · rw [if_pos h]
  · rw [if_neg (by omega), if_pos h]
  · rw [if_neg (by omega), if_neg (by omega)]
  · rw [if_neg (by omega), if_neg (by omega)]

/-- Witness for C6 at `now = 1000`. -/
theorem expiration_window_witness :
    validateExpiration 1000 500 = vFail .expired ∧
    validateExpiration 1000 9000 = vFail .expirationTooFar ∧
    validateExpiration 1000 8200 = vOk :=
  ⟨(expiration_window 1000 500).1 (by decide),
   (expiration_window 1000 9000).2.1 (by decide),
   (expiration_window 1000 8200).2.2.1 (by decide) (by decide)⟩

/-! ## C9 -/

set_option maxRecDepth 8192 in
/-- C9 counterexample: with an absent `witnessTypeString` the element type
string embeds the JavaScript rendering `undefined` while the root type string
embeds the `bytes data` fallback — not the identical text. -/
theorem mandate_arg_divergence_cex :
    mandateArgElement none ≠ mandateArgRoot none ∧
    elementTypeStringOf none = elementTypeStringPre ++ "undefined" ++ ")" ∧
    rootTypeStringOf none = rootTypeStringPre ++ "bytes data" ++ ")" :=
  ⟨by decide, rfl, rfl⟩

/-- C9 amended: whenever the witness type string is present and non-empty
(the only shape structural validation lets through for multichain compacts),
the identical text is embedded in the element and root type strings. -/
theorem mandate_arg_agreement (s : String) (hs : s ≠ "") :
    mandateArgElement (some s) = s ∧ mandateArgRoot (some s) = s ∧
    elementTypeStringOf (some s) = elementTypeStringPre ++ s ++ ")" ∧
    rootTypeStringOf (some s) = rootTypeStringPre ++ s ++ ")" := by
  refine ⟨rfl, ?_, rfl, ?_⟩ <;>
    simp [mandateArgRoot, rootTypeStringOf, hs]

/-- Witness for C9 (amended) at a concrete witness type string. -/
theorem mandate_arg_agreement_witness :
    mandateArgElement (some "uint256 minAmount") = "uint256 minAmount" ∧
    mandateArgRoot (some "uint256 minAmount") = "uint256 minAmount" ∧
    elementTypeStringOf (some "uint256 minAmount") =
      elementTypeStringPre ++ "uint256 minAmount" ++ ")" ∧
    rootTypeStringOf (some "uint256 minAmount") =
      rootTypeStringPre ++ "uint256 minAmount" ++ ")" :=
  mandate_arg_agreement "uint256 minAmount" (by decide)

/-! ## C1 -/

/-- C1: inside `validateAllocation`, once the resource lock is present with no
forced withdrawal and the allocator id matches, `pending` is the sum of the
indexer account deltas, `allocatable = max(0, balance − pending)`, and the
submission fails with the insufficient-balance error carrying
`(have, need) = (allocatable, outstanding + amount)` exactly when
`allocatable < outstanding + amount`. -/
theorem allocation_balance_check (c : ValidatedCompactMessage) (chainId : String)
    (ctx : SingleAllocationContext) (rl : ResourceLock) (cfg : ChainConfig) (amt : Nat)
    (hrl : ctx.response.resourceLocks.head? = some rl)
    (hw : rl.withdrawalStatus = 0)
    (hcfg : findChainConfig ctx.chains chainId = some cfg)
    (hid : cfg.allocatorId = allocatorIdFromCompactId c.id)
    (hamt : jsBigInt? c.amount = some amt) :
    validateAllocation c chainId ctx =
      (if max 0 (rl.balance - ctx.response.accountDeltas.sum) <
          ctx.allocatedBalance + (amt : Int) then
        vFail (.insufficientBalance (max 0 (rl.balance - ctx.response.accountDeltas.sum))
          (ctx.allocatedBalance + (amt : Int)))
      else vOk) := by
  unfold validateAllocation
  rw [hrl, hcfg, hamt]
  simp [hw, hid, allocatableBalance_eq_max]

/-- Witness for C1: a concrete failing case reporting `(have 3, need 5)` and a
concrete passing case. -/
theorem allocation_balance_check_witness :
    validateAllocation
      { singleShiftCompact with amount := "5" } "10"
      { singleShiftContext with
          response := ⟨[⟨0, 10⟩], [3, 4], []⟩
          allocatedBalance := 2 } = vFail (.insufficientBalance 3 7) ∧
    validateAllocation singleShiftCompact "10" singleShiftContext = vOk := by
  constructor
  · have h := allocation_balance_check
      { singleShiftCompact with amount := "5" } "10"
      { singleShiftContext with
          response := ⟨[⟨0, 10⟩], [3, 4], []⟩
          allocatedBalance := 2 }
      ⟨0, 10⟩ ⟨"10", 16⟩ 5 (by decide) (by decide) (by decide) (by decide) (by decide)
    rw [h]
    decide
  · have h := allocation_balance_check singleShiftCompact "10" singleShiftContext
      ⟨0, 1000000⟩ ⟨"10", 16⟩ 1 (by decide) (by decide) (by decide) (by decide) (by decide)
    rw [h]
    decide

theorem validateAllocation_allocator_iff (c : ValidatedCompactMessage) (chainId : String)
    (ctx : SingleAllocationContext) (rl : ResourceLock) (cfg : ChainConfig)
    (hrl : ctx.response.resourceLocks.head? = some rl)
    (hw : rl.withdrawalStatus = 0)
    (hcfg : findChainConfig ctx.chains chainId = some cfg) :
    validateAllocation c chainId ctx = vFail .invalidAllocatorId ↔
      cfg.allocatorId ≠ allocatorIdFromCompactId c.id := by
  unfold validateAllocation
  rw [hrl, hcfg]
  by_cases heq : cfg.allocatorId = allocatorIdFromCompactId c.id
  · rcases hj : jsBigInt? c.amount with _ | amt <;>
      simp [hw, heq, hj, vFail, vOk] <;>
      split <;>
      simp [vFail, vOk]
  · simp [hw, heq, vFail]

theorem validateBatchAllocation_allocator_iff (c : ValidatedBatchCompactMessage)
    (chainId : String) (ctx : LockAllocationContext) (cfg : ChainConfig) (l : Lock)
    (tagVal tokenVal : Nat)
    (hcfg : findChainConfig ctx.chains chainId = some cfg)
    (hc : c.commitments = [l])
    (htag : jsBigInt? l.lockTag = some tagVal)
    (htok : jsBigInt? l.token = some tokenVal) :
    validateBatchAllocation c chainId ctx = vFail (.invalidAllocatorFor l.lockTag) ↔
      cfg.allocatorId ≠ allocatorIdFromLockTag tagVal := by
  unfold validateBatchAllocation
  rw [hcfg, hc]
  unfold checkLocksAllocation checkLockAllocation
  rw [htag, htok]
  by_cases heq : cfg.allocatorId = allocatorIdFromLockTag tagVal
  · rcases hd : ((ctx.response (buildLockId tagVal tokenVal)).resourceLocks).head? with _ | rl
    · simp [heq, hd, vFail, vOk]
    · by_cases hw : rl.withdrawalStatus = 0
      · rcases hj : jsBigInt? l.amount with _ | amt <;>
          simp [heq, hd, hw, hj, vFail, vOk] <;>
          split <;>
          simp [checkLocksAllocation, vFail, vOk]
      · simp [heq, hd, hw, vFail, vOk]
  · simp [heq, vFail]

theorem validateMultichainAllocation_allocator_iff
    (c : ValidatedMultichainCompactMessage) (chainId : String)
    (ctx : LockAllocationContext) (cfg : ChainConfig) (cid : Nat)
    (e : MultichainElement) (l : Lock) (tagVal tokenVal : Nat)
    (hcfg : findChainConfig ctx.chains chainId = some cfg)
    (hcid : jsBigInt? chainId = some cid)
    (hels : c.elements = [e])
    (hech : e.chainId = cid)
    (hecl : e.commitments = [l])
    (htag : jsBigInt? l.lockTag = some tagVal)
    (htok : jsBigInt? l.token = some tokenVal) :
    validateMultichainAllocation c chainId ctx = vFail (.invalidAllocatorFor l.lockTag) ↔
      cfg.allocatorId ≠ allocatorIdFromLockTag tagVal := by
  unfold validateMultichainAllocation
  rw [hcfg, hcid, hels]
  simp only [List.filter_cons, List.filter_nil, hech, decide_True, if_true]
  simp only [List.isEmpty_cons, Bool.false_eq_true, if_false]
  unfold checkElementsAllocation
  simp only [hecl]
  unfold checkLocksAllocation checkLockAllocation
  rw [htag, htok]
  by_cases heq : cfg.allocatorId = allocatorIdFromLockTag tagVal
  · rcases hd : ((ctx.response (buildLockId tagVal tokenVal)).resourceLocks).head? with _ | rl
    · simp [heq, hd, vFail, vOk, checkElementsAllocation]
    · by_cases hw : rl.withdrawalStatus = 0
      · rcases hj : jsBigInt? l.amount with _ | amt <;>
          simp [heq, hd, hw, hj, vFail, vOk, checkLocksAllocation, checkElementsAllocation] <;>
          split <;>
          simp [checkLocksAllocation, checkElementsAllocation, vFail, vOk]
      · simp [heq, hd, hw, vFail, vOk, checkLocksAllocation, checkElementsAllocation]
  · simp [heq, vFail, checkLocksAllocation, checkElementsAllocation]

theorem checkLockAllocation_error_ne_membership (cfg : ChainConfig)
    (ctx : LockAllocationContext) (l : Lock) (s : String) :
    checkLockAllocation cfg ctx l ≠ vFail (.noElementsForChain s) := by
  unfold checkLockAllocation
  repeat' split
  all_goals simp [vFail, vOk]
  all_goals repeat' split
  all_goals simp [vFail, vOk]

theorem checkLocksAllocation_error_ne_membership (cfg : ChainConfig)
    (ctx : LockAllocationContext) (ls : List Lock) (s : String) :
    checkLocksAllocation cfg ctx ls ≠ vFail (.noElementsForChain s) := by
  induction ls with
  | nil => simp [checkLocksAllocation, vOk, vFail]
  | cons l rest ih =>
    simp only [checkLocksAllocation]
    split
    · exact ih
    · exact checkLockAllocation_error_ne_membership cfg ctx l s

theorem checkElementsAllocation_error_ne_membership (cfg : ChainConfig)
    (ctx : LockAllocationContext) (els : List MultichainElement) (s : String) :
    checkElementsAllocation cfg ctx els ≠ vFail (.noElementsForChain s) := by
  induction els with
  | nil => simp [checkElementsAllocation, vOk, vFail]
  | cons e rest ih =>
    simp only [checkElementsAllocation]
    split
    · exact ih
    · exact checkLocksAllocation_error_ne_membership cfg ctx e.commitments s

/-- C8: with the chain configuration present and a parsable chain id,
`validateMultichainAllocation` fails with the no-element-for-this-chain error
exactly when no element's `chainId` equals the submission chain id; when some
element matches, it proceeds to the per-element commitment checks. -/
theorem multichain_membership (c : ValidatedMultichainCompactMessage)
    (chainId : String) (ctx : LockAllocationContext) (cfg : ChainConfig) (cid : Nat)
    (hcfg : findChainConfig ctx.chains chainId = some cfg)
    (hcid : jsBigInt? chainId = some cid) :
    (validateMultichainAllocation c chainId ctx = vFail (.noElementsForChain chainId) ↔
      c.elements.filter (fun e => e.chainId = cid) = []) ∧
    (c.elements.filter (fun e => e.chainId = cid) ≠ [] →
      validateMultichainAllocation c chainId ctx =
        checkElementsAllocation cfg ctx (c.elements.filter (fun e => e.chainId = cid))) := by
  unfold validateMultichainAllocation
  simp only [hcfg, hcid]
  constructor
  · constructor
    · intro h
      by_contra hne
      rw [if_neg (fun hc => hne (List.isEmpty_iff.mp hc))] at h
      exact checkElementsAllocation_error_ne_membership cfg ctx _ chainId h
    · intro h
      rw [if_pos (List.isEmpty_iff.mpr h)]
  · intro hne
    rw [if_neg (fun hc => hne (List.isEmpty_iff.mp hc))]

/-- C5 amended: the batch and multichain paths compare
`(lockTag >> 4) & (2^92−1)` against the configured allocator id and fail with
their invalid-allocator error exactly on mismatch; the single-compact path
instead compares `(id >> 160) & (2^92−1)` — the low 92 bits of the lock tag,
without the shift by 4 — and fails with its invalid-allocator error exactly
on mismatch. -/
theorem allocator_id_extraction :
    (∀ (c : ValidatedCompactMessage) (chainId : String) (ctx : SingleAllocationContext)
        (rl : ResourceLock) (cfg : ChainConfig),
      ctx.response.resourceLocks.head? = some rl →
      rl.withdrawalStatus = 0 →
      findChainConfig ctx.chains chainId = some cfg →
      (validateAllocation c chainId ctx = vFail .invalidAllocatorId ↔
        cfg.allocatorId ≠ allocatorIdFromCompactId c.id)) ∧
    (∀ (c : ValidatedBatchCompactMessage) (chainId : String) (ctx : LockAllocationContext)
        (cfg : ChainConfig) (l : Lock) (tagVal tokenVal : Nat),
      findChainConfig ctx.chains chainId = some cfg →
      c.commitments = [l] →
      jsBigInt? l.lockTag = some tagVal →
      jsBigInt? l.token = some tokenVal →
      (validateBatchAllocation c chainId ctx = vFail (.invalidAllocatorFor l.lockTag) ↔
        cfg.allocatorId ≠ allocatorIdFromLockTag tagVal)) ∧
    (∀ (c : ValidatedMultichainCompactMessage) (chainId : String)
        (ctx : LockAllocationContext) (cfg : ChainConfig) (cid : Nat)
        (e : MultichainElement) (l : Lock) (tagVal tokenVal : Nat),
      findChainConfig ctx.chains chainId = some cfg →
      jsBigInt? chainId = some cid →
      c.elements = [e] →
      e.chainId = cid →
      e.commitments = [l] →
      jsBigInt? l.lockTag = some tagVal →
      jsBigInt? l.token = some tokenVal →
      (validateMultichainAllocation c chainId ctx = vFail (.invalidAllocatorFor l.lockTag) ↔
        cfg.allocatorId ≠ allocatorIdFromLockTag tagVal)) :=
  ⟨validateAllocation_allocator_iff,
   validateBatchAllocation_allocator_iff,
   validateMultichainAllocation_allocator_iff⟩

/-- Witness for C5 (amended), instantiating all three paths at concrete
inputs with configured allocator id 16. -/
theorem allocator_id_extraction_witness :
    (validateAllocation singleShiftCompact "10" singleShiftContext = vFail .invalidAllocatorId ↔
      (⟨"10", 16⟩ : ChainConfig).allocatorId ≠ allocatorIdFromCompactId singleShiftCompact.id) ∧
    (validateBatchAllocation batchAllocCompact "10" lockCtx16 =
        vFail (.invalidAllocatorFor lockMatch.lockTag) ↔
      (⟨"10", 16⟩ : ChainConfig).allocatorId ≠ allocatorIdFromLockTag 256) ∧
    (validateMultichainAllocation mcAllocCompact "10" lockCtx16 =
        vFail (.invalidAllocatorFor lockMatch.lockTag) ↔
      (⟨"10", 16⟩ : ChainConfig).allocatorId ≠ allocatorIdFromLockTag 256) :=
  ⟨allocator_id_extraction.1 singleShiftCompact "10" singleShiftContext ⟨0, 1000000⟩
      ⟨"10", 16⟩ (by decide) (by decide) (by decide),
   allocator_id_extraction.2.1 batchAllocCompact "10" lockCtx16 ⟨"10", 16⟩ lockMatch
      256 3 (by decide) (by decide) (by decide) (by decide),
   allocator_id_extraction.2.2 mcAllocCompact "10" lockCtx16 ⟨"10", 16⟩ 10
      mcAllocElement lockMatch 256 3 (by decide) (by decide) (by decide) (by decide)
      (by decide) (by decide) (by decide)⟩

/-- Witness for C8, applying the theorem at a compact whose only element
lives on chain 137 while the submission chain is 10. -/
theorem multichain_membership_witness :
    (validateMultichainAllocation mcOnly137 "10" lockCtx16 =
        vFail (.noElementsForChain "10") ↔
      mcOnly137.elements.filter (fun e => e.chainId = 10) = []) ∧
    (mcOnly137.elements.filter (fun e => e.chainId = 10) ≠ [] →
      validateMultichainAllocation mcOnly137 "10" lockCtx16 =
        checkElementsAllocation ⟨"10", 16⟩ lockCtx16
          (mcOnly137.elements.filter (fun e => e.chainId = 10))) :=
  multichain_membership mcOnly137 "10" lockCtx16 ⟨"10", 16⟩ 10 (by decide) (by decide)

/-- C5 counterexample: a single compact whose id carries lock tag `0x10`.
The configured allocator id `16` equals the code's single-path extraction
`(id >> 160) & (2^92−1)`, so validation passes the allocator check and
succeeds — although the claim's formula `(lockTag >> 4) & (2^92−1)` yields
`1 ≠ 16` and would demand an invalid-allocator failure. -/
theorem single_allocator_extraction_cex :
    validateAllocation singleShiftCompact "10" singleShiftContext = vOk ∧
    findChainConfig singleShiftContext.chains "10" = some ⟨"10", 16⟩ ∧
    allocatorIdFromLockTag (singleShiftCompact.id >>> 160) ≠ 16 :=
  ⟨by decide, by decide, by decide⟩

/-- C7: for single and batch compacts, structural validation returns
`isValid: false` whenever exactly one of `witnessTypeString`/`witnessHash` is
null; and when every other check passes, validation succeeds exactly when
both are present or both are null. -/
theorem witness_consistency :
    (∀ c : CompactMessage,
      ((c.witnessTypeString.isNone && c.witnessHash.isSome) ||
        (c.witnessTypeString.isSome && c.witnessHash.isNone)) = true →
      (validateStructure c).1.isValid = false) ∧
    (∀ c : BatchCompactMessage,
      ((c.witnessTypeString.isNone && c.witnessHash.isSome) ||
        (c.witnessTypeString.isSome && c.witnessHash.isNone)) = true →
      (validateBatchStructure c).1.isValid = false) ∧
    (∀ (c : CompactMessage) (ns : String),
      (getAddress? c.arbiter).isSome → (getAddress? c.sponsor).isSome →
      (toPositiveBigInt? c.id).isSome → (toPositiveBigInt? c.expires).isSome →
      (toPositiveBigInt? c.amount).isSome → c.nonce = some ns →
      (toPositiveBigInt? ns).isSome →
      ((validateStructure c).1.isValid = true ↔
        ((c.witnessTypeString = none ∧ c.witnessHash = none) ∨
         (c.witnessTypeString ≠ none ∧ c.witnessHash ≠ none)))) ∧
    (∀ (c : BatchCompactMessage) (ns : String) (v : List Lock),
      (getAddress? c.arbiter).isSome → (getAddress? c.sponsor).isSome →
      c.nonce = some ns → (toPositiveBigInt? ns).isSome →
      (toPositiveBigInt? c.expires).isSome → c.commitments ≠ [] →
      checkBatchLocks c.commitments = .ok v →
      ((validateBatchStructure c).1.isValid = true ↔
        ((c.witnessTypeString = none ∧ c.witnessHash = none) ∨
         (c.witnessTypeString ≠ none ∧ c.witnessHash ≠ none)))) := by
  refine ⟨?_, ?_, ?_, ?_⟩
  · intro c hx
    unfold validateStructure
    split
    · rfl
    · repeat' split
      all_goals simp_all [vFail, vOk]
  · intro c hx
    unfold validateBatchStructure
    split
    · rfl
    · repeat' split
      all_goals simp_all [vFail, vOk]
  · intro c ns ha hs hid hexp hamt hn hns
    rcases haa : getAddress? c.arbiter with _ | av
    · simp [haa] at ha
    rcases hsa : getAddress? c.sponsor with _ | sv
    · simp [hsa] at hs
    rcases hi : toPositiveBigInt? c.id with _ | idv
    · simp [hi] at hid
    rcases he : toPositiveBigInt? c.expires with _ | ev
    · simp [he] at hexp
    rcases hm : toPositiveBigInt? c.amount with _ | av
    · simp [hm] at hamt
    rcases hv : toPositiveBigInt? ns with _ | nv
    · simp [hv] at hns
    unfold validateStructure
    rw [hn]
    simp only [haa, hsa, hi, he, hm, hv]
    cases hw : c.witnessTypeString <;> cases hh : c.witnessHash <;>
      simp_all [vFail, vOk]
  · intro c ns v ha hs hn hns hexp hne hok
    rcases haa : getAddress? c.arbiter with _ | av
    · simp [haa] at ha
    rcases hsa : getAddress? c.sponsor with _ | sv
    · simp [hsa] at hs
    rcases hv : toPositiveBigInt? ns with _ | nv
    · simp [hv] at hns
    rcases he : toPositiveBigInt? c.expires with _ | ev
    · simp [he] at hexp
    rcases hcl : c.commitments with _ | ⟨l, rest⟩
    · exact absurd hcl hne
    rw [hcl] at hok
    unfold validateBatchStructure
    rw [hn, hcl, hok]
    simp only [haa, hsa, hv, he]
    cases hw : c.witnessTypeString <;> cases hh : c.witnessHash <;>
      simp_all [vFail, vOk]

/-- Witness for C7 at concrete compacts: one-sided witness pairs rejected,
well-formed compacts accepted exactly on the both-or-neither condition. -/
theorem witness_consistency_witness :
    (validateStructure cm7bad).1.isValid = false ∧
    (validateBatchStructure cb7bad).1.isValid = false ∧
    ((validateStructure cm7ok).1.isValid = true ↔
      ((cm7ok.witnessTypeString = none ∧ cm7ok.witnessHash = none) ∨
       (cm7ok.witnessTypeString ≠ none ∧ cm7ok.witnessHash ≠ none))) ∧
    ((validateBatchStructure cb7ok).1.isValid = true ↔
      ((cb7ok.witnessTypeString = none ∧ cb7ok.witnessHash = none) ∨
       (cb7ok.witnessTypeString ≠ none ∧ cb7ok.witnessHash ≠ none))) :=
  ⟨witness_consistency.1 cm7bad (by decide),
   witness_consistency.2.1 cb7bad (by decide),
   witness_consistency.2.2.1 cm7ok "1" (by decide) (by decide) (by decide) (by decide)
     (by decide) (by decide) (by decide),
   witness_consistency.2.2.2 cb7ok "1"
     [⟨"0x000000000000000000000001", "0x0000000000000000000000000000000000000003", "5"⟩]
     (by decide) (by decide) (by decide) (by decide) (by decide) (by decide) rfl⟩

/-! ## Sorting lemmas for C2 -/

theorem insertLock_perm (x : Lock) (l : List Lock) :
    (insertLock x l).Perm (x :: l) := by
  induction l with
  | nil => exact List.Perm.refl _
  | cons y ys ih =>
    unfold insertLock
    split
    · exact List.Perm.refl _
    · exact (ih.cons y).trans (List.Perm.swap x y ys)

theorem sortCommitments_perm (l : List Lock) : (sortCommitments l).Perm l := by
  induction l with
  | nil => exact List.Perm.refl _
  | cons x xs ih => exact (insertLock_perm x (sortCommitments xs)).trans (ih.cons x)

theorem insertLock_pairwise (x : Lock) (l : List Lock)
    (h : l.Pairwise (fun a b => sortKey a ≤ sortKey b)) :
    (insertLock x l).Pairwise (fun a b => sortKey a ≤ sortKey b) := by
  induction l with
  | nil => simp [insertLock]
  | cons y ys ih =>
    rcases List.pairwise_cons.mp h with ⟨hy, hys⟩
    unfold insertLock
    split
    · rename_i hlt
      refine List.pairwise_cons.mpr ⟨?_, h⟩
      intro z hz
      rcases List.mem_cons.mp hz with rfl | hz'
      · exact Nat.le_of_lt hlt
      · exact Nat.le_trans (Nat.le_of_lt hlt) (hy z hz')
    · rename_i hge
      refine List.pairwise_cons.mpr ⟨?_, ih hys⟩
      intro z hz
      rcases List.mem_cons.mp ((insertLock_perm x ys).mem_iff.mp hz) with h | h
      · exact h ▸ Nat.le_of_not_lt hge
      · exact hy z h

theorem sortCommitments_pairwise (l : List Lock) :
    (sortCommitments l).Pairwise (fun a b => sortKey a ≤ sortKey b) := by
  induction l with
  | nil => simp [sortCommitments]
  | cons x xs ih => exact insertLock_pairwise x (sortCommitments xs) ih

theorem perm_pairwise_lt_eq :
    ∀ {l₁ l₂ : List Lock}, l₁.Perm l₂ →
      l₁.Pairwise (fun a b => sortKey a < sortKey b) →
      l₂.Pairwise (fun a b => sortKey a < sortKey b) → l₁ = l₂ := by
  intro l₁
  induction l₁ with
  | nil =>
    intro l₂ p _ _
    exact (p.nil_eq).symm ▸ rfl
  | cons x xs ih =>
    intro l₂ p s₁ s₂
    cases l₂ with
    | nil => exact absurd p.symm.nil_eq (by simp)
    | cons y ys =>
      by_cases hxy : x = y
      · subst hxy
        rw [ih p.cons_inv (List.pairwise_cons.mp s₁).2 (List.pairwise_cons.mp s₂).2]
      · exfalso
        have hx : x ∈ ys := by
          rcases List.mem_cons.mp (p.mem_iff.mp (List.mem_cons_self x xs)) with h | h
          · exact absurd h hxy
          · exact h
        have hy : y ∈ xs := by
          rcases List.mem_cons.mp (p.symm.mem_iff.mp (List.mem_cons_self y ys)) with h | h
          · exact absurd h.symm hxy
          · exact h
        have h₁ : sortKey x < sortKey y := (List.pairwise_cons.mp s₁).1 y hy
        have h₂ : sortKey y < sortKey x := (List.pairwise_cons.mp s₂).1 x hx
        exact Nat.lt_irrefl _ (Nat.lt_trans h₁ h₂)

theorem pairwise_lt_of_le_nodup {l : List Lock}
    (hle : l.Pairwise (fun a b => sortKey a ≤ sortKey b))
    (hnd : (l.map sortKey).Nodup) :
    l.Pairwise (fun a b => sortKey a < sortKey b) := by
  have hne : l.Pairwise (fun a b => sortKey a ≠ sortKey b) :=
    (List.pairwise_map).mp hnd
  exact (hle.and hne).imp (fun h => Nat.lt_of_le_of_ne h.1 h.2)

theorem sortCommitments_eq_of_perm {l₁ l₂ : List Lock} (p : l₁.Perm l₂)
    (hnd : (l₁.map sortKey).Nodup) :
    sortCommitments l₁ = sortCommitments l₂ := by
  have p' : (sortCommitments l₁).Perm (sortCommitments l₂) :=
    ((sortCommitments_perm l₁).trans p).trans (sortCommitments_perm l₂).symm
  have hnd₁ : ((sortCommitments l₁).map sortKey).Nodup :=
    (((sortCommitments_perm l₁).map sortKey).nodup_iff).mpr hnd
  have hnd₂ : ((sortCommitments l₂).map sortKey).Nodup :=
    ((p'.map sortKey).nodup_iff).mp hnd₁
  exact perm_pairwise_lt_eq p'
    (pairwise_lt_of_le_nodup (sortCommitments_pairwise l₁) hnd₁)
    (pairwise_lt_of_le_nodup (sortCommitments_pairwise l₂) hnd₂)

theorem mapM_isSome_of_forall {α β : Type} (f : α → Option β) :
    ∀ l : List α, (∀ x ∈ l, (f x).isSome) → (l.mapM f).isSome := by
  intro l
  induction l with
  | nil => intro _; rfl
  | cons x xs ih =>
    intro h
    rw [List.mapM_cons]
    rcases hf : f x with _ | y
    · have := h x (List.mem_cons_self x xs)
      simp [hf] at this
    · rcases Option.isSome_iff_exists.mp (ih fun z hz => h z (List.mem_cons_of_mem x hz)) with ⟨ys, hys⟩
      have hys' : List.mapM.loop f xs [] = some ys := hys
      simp [hf, hys, hys']

theorem any_isNone_false {l : List Lock}
    (h : ∀ x ∈ l, (lockIdOfStrings? x.lockTag x.token).isSome) :
    (l.any fun x => (lockIdOfStrings? x.lockTag x.token).isNone) = false := by
  induction l with
  | nil => rfl
  | cons x xs ih =>
    have hx := h x (List.mem_cons_self x xs)
    rcases ho : lockIdOfStrings? x.lockTag x.token with _ | v
    · simp [ho] at hx
    · simp [List.any_cons, ho, ih fun z hz => h z (List.mem_cons_of_mem x hz)]

theorem batchHashFromSorted_length {arbiter sponsor : String} {n e : Nat}
    {wts wh : Option String} {sorted : List Lock} {h : List Nat}
    (H : batchHashFromSorted arbiter sponsor n e wts wh sorted = some h) :
    h.length = 32 := by
  unfold batchHashFromSorted at H
  repeat' split at H
  all_goals try exact Option.noConfusion H
  all_goals
    have hx := Option.some_inj.mp H
    subst hx
    exact keccak256_length _

theorem batchHashFromSorted_isSome (arbiter sponsor : String) (n e : Nat)
    (wts wh : Option String) (sorted : List Lock)
    (ha : (getAddress? arbiter).isSome) (hs : (getAddress? sponsor).isSome)
    (hn : n < U256) (he : e < U256)
    (hencs : ∀ l ∈ sorted, (encodeCommitmentBatch? l).isSome)
    (hwit : (jsFalsyOpt wts || jsFalsyOpt wh) = true ∨
        ∃ ts hsh, wts = some ts ∧ wh = some hsh ∧ (hexBytes? hsh 32).isSome) :
    (batchHashFromSorted arbiter sponsor n e wts wh sorted).isSome := by
  rcases Option.isSome_iff_exists.mp ha with ⟨av, hav⟩
  rcases Option.isSome_iff_exists.mp hs with ⟨sv, hsv⟩
  rcases Option.isSome_iff_exists.mp (mapM_isSome_of_forall _ sorted hencs) with ⟨encs, hencs'⟩
  unfold batchHashFromSorted
  have hencs2 : List.mapM.loop encodeCommitmentBatch? sorted [] = some encs := hencs'
  simp only [hav, hsv, hencs', hencs2]
  rw [if_pos (by simp [hn, he])]
  by_cases hcond : (jsFalsyOpt wts || jsFalsyOpt wh) = true
  · rw [if_pos hcond]
    simp
  · rw [if_neg hcond]
    rcases hwit with hfal | ⟨ts, hsh, hts, hh, hhex⟩
    · exact absurd hfal hcond
    · rcases Option.isSome_iff_exists.mp hhex with ⟨hb, hhb⟩
      rw [hts, hh]
      simp only [hhb]
      simp

/-- C2: for a validated batch compact with pairwise-distinct lockIds,
`generateBatchClaimHash` is invariant under any permutation of the
commitments list, and returns a 32-byte claim hash. -/
theorem batch_hash_perm_invariant (c : ValidatedBatchCompactMessage) (l' : List Lock)
    (hperm : l'.Perm c.commitments)
    (hnd : (c.commitments.map sortKey).Nodup)
    (hkeys : ∀ l ∈ c.commitments, (lockIdOfStrings? l.lockTag l.token).isSome)
    (ha : (getAddress? c.arbiter).isSome) (hs : (getAddress? c.sponsor).isSome)
    (hn : c.nonce < U256) (he : c.expires < U256)
    (hencs : ∀ l ∈ c.commitments, (encodeCommitmentBatch? l).isSome)
    (hwit : (jsFalsyOpt c.witnessTypeString || jsFalsyOpt c.witnessHash) = true ∨
        ∃ ts hsh, c.witnessTypeString = some ts ∧ c.witnessHash = some hsh ∧
          (hexBytes? hsh 32).isSome) :
    generateBatchClaimHash { c with commitments := l' } = generateBatchClaimHash c ∧
    ∃ h, generateBatchClaimHash c = some h ∧ h.length = 32 := by
  have hkeys' : ∀ l ∈ l', (lockIdOfStrings? l.lockTag l.token).isSome :=
    fun l hl => hkeys l (hperm.mem_iff.mp hl)
  have hg : generateBatchClaimHash c =
      batchHashFromSorted c.arbiter c.sponsor c.nonce c.expires c.witnessTypeString
        c.witnessHash (sortCommitments c.commitments) := by
    unfold generateBatchClaimHash
    rw [if_neg (by simp [any_isNone_false hkeys])]
  have hg' : generateBatchClaimHash { c with commitments := l' } =
      batchHashFromSorted c.arbiter c.sponsor c.nonce c.expires c.witnessTypeString
        c.witnessHash (sortCommitments l') := by
    unfold generateBatchClaimHash
    rw [if_neg (by simp [any_isNone_false hkeys'])]
  have hsorteq : sortCommitments l' = sortCommitments c.commitments :=
    sortCommitments_eq_of_perm hperm (((hperm.map sortKey).nodup_iff).mpr hnd)
  constructor
  · rw [hg, hg', hsorteq]
  · have hsome := batchHashFromSorted_isSome c.arbiter c.sponsor c.nonce c.expires
      c.witnessTypeString c.witnessHash (sortCommitments c.commitments) ha hs hn he
      (fun l hl => hencs l ((sortCommitments_perm c.commitments).mem_iff.mp hl)) hwit
    rcases Option.isSome_iff_exists.mp hsome with ⟨h, hh⟩
    exact ⟨h, hg ▸ hh, batchHashFromSorted_length hh⟩

/-- Witness for C2: swapping the two commitments of a concrete batch leaves
the claim hash unchanged. -/
theorem batch_hash_perm_invariant_witness :
    generateBatchClaimHash { batchPrefixed with commitments := [lockBPrefixed, lockA] } =
      generateBatchClaimHash batchPrefixed ∧
    ∃ h, generateBatchClaimHash batchPrefixed = some h ∧ h.length = 32 :=
  batch_hash_perm_invariant batchPrefixed [lockBPrefixed, lockA]
    ((List.Perm.swap lockBPrefixed lockA []).symm) (by decide) (by decide) (by decide)
    (by decide) (by decide) (by decide) (by decide) (Or.inl (by decide))

/-! ## C4 -/

theorem checkBatchLocks_isOk (l : List Lock)
    (h : ∀ x ∈ l, isLockTagFormat x.lockTag = true ∧ (getAddress? x.token).isSome ∧
      (toPositiveBigInt? x.amount).isSome) :
    ∃ v, checkBatchLocks l = .ok v := by
  induction l with
  | nil => exact ⟨[], rfl⟩
  | cons x xs ih =>
    rcases h x (List.mem_cons_self x xs) with ⟨hf, htk, hamt⟩
    rcases Option.isSome_iff_exists.mp hamt with ⟨av, hav⟩
    rcases ih (fun z hz => h z (List.mem_cons_of_mem x hz)) with ⟨v, hv⟩
    refine ⟨⟨x.lockTag, x.token, Nat.repr av⟩ :: v, ?_⟩
    unfold checkBatchLocks
    rw [hv, hav]
    simp [hf, Option.isSome_iff_ne_none.mp htk]

/-- C4 counterexample: a batch whose two commitments share the same lockId.
Structural validation accepts it and `generateBatchClaimHash` still produces
a claim hash — there is no `DuplicateLock` failure anywhere. -/
theorem batch_duplicate_locks_accepted_cex :
    lockIdOfStrings? lockDupA.lockTag lockDupA.token =
      lockIdOfStrings? lockDupB.lockTag lockDupB.token ∧
    lockDupA ≠ lockDupB ∧
    (validateBatchStructure rawBatchDup).1.isValid = true ∧
    (generateBatchClaimHash batchDup).isSome = true :=
  ⟨by decide, by decide, by decide, by decide⟩

/-- C4 amended: a duplicated `(lockTag, token)` pair is not rejected: batch
structural validation accepts any batch whose per-field checks pass, with or
without duplicate lockIds, and `generateBatchClaimHash` sorts the duplicates
next to each other (the comparator returns 0) and produces a claim hash. -/
theorem batch_duplicate_locks_accepted :
    (∀ (c : BatchCompactMessage) (ns : String),
      ¬(c.commitments.map sortKey).Nodup →
      (getAddress? c.arbiter).isSome → (getAddress? c.sponsor).isSome →
      c.nonce = some ns → (toPositiveBigInt? ns).isSome →
      (toPositiveBigInt? c.expires).isSome → c.commitments ≠ [] →
      (∀ x ∈ c.commitments, isLockTagFormat x.lockTag = true ∧
        (getAddress? x.token).isSome ∧ (toPositiveBigInt? x.amount).isSome) →
      ((c.witnessTypeString.isNone && c.witnessHash.isSome) ||
        (c.witnessTypeString.isSome && c.witnessHash.isNone)) = false →
      (validateBatchStructure c).1.isValid = true) ∧
    (∀ c : ValidatedBatchCompactMessage,
      ¬(c.commitments.map sortKey).Nodup →
      (∀ l ∈ c.commitments, (lockIdOfStrings? l.lockTag l.token).isSome) →
      (getAddress? c.arbiter).isSome → (getAddress? c.sponsor).isSome →
      c.nonce < U256 → c.expires < U256 →
      (∀ l ∈ c.commitments, (encodeCommitmentBatch? l).isSome) →
      ((jsFalsyOpt c.witnessTypeString || jsFalsyOpt c.witnessHash) = true ∨
        ∃ ts hsh, c.witnessTypeString = some ts ∧ c.witnessHash = some hsh ∧
          (hexBytes? hsh 32).isSome) →
      (generateBatchClaimHash c).isSome = true) := by
  constructor
  · intro c ns _hdup ha hs hn hns hexp hne hlocks hwitc
    rcases haa : getAddress? c.arbiter with _ | av
    · simp [haa] at ha
    rcases hsa : getAddress? c.sponsor with _ | sv
    · simp [hsa] at hs
    rcases hv : toPositiveBigInt? ns with _ | nv
    · simp [hv] at hns
    rcases he : toPositiveBigInt? c.expires with _ | ev
    · simp [he] at hexp
    rcases hcl : c.commitments with _ | ⟨l, rest⟩
    · exact absurd hcl hne
    rcases checkBatchLocks_isOk c.commitments hlocks with ⟨v, hok⟩
    rw [hcl] at hok
    unfold validateBatchStructure
    rw [hn, hcl, hok]
    simp only [haa, hsa, hv, he]
    simp [vOk, vFail, hwitc]
  · intro c _hdup hkeys ha hs hn he hencs hwit
    have hg : generateBatchClaimHash c =
        batchHashFromSorted c.arbiter c.sponsor c.nonce c.expires c.witnessTypeString
          c.witnessHash (sortCommitments c.commitments) := by
      unfold generateBatchClaimHash
      rw [if_neg (by simp [any_isNone_false hkeys])]
    rw [hg]
    exact batchHashFromSorted_isSome c.arbiter c.sponsor c.nonce c.expires
      c.witnessTypeString c.witnessHash (sortCommitments c.commitments) ha hs hn he
      (fun l hl => hencs l ((sortCommitments_perm c.commitments).mem_iff.mp hl)) hwit

set_option maxRecDepth 100000 in
/-- Witness for C4 (amended) at the duplicate-lock batch. -/
theorem batch_duplicate_locks_accepted_witness :
    (validateBatchStructure rawBatchDup).1.isValid = true ∧
    (generateBatchClaimHash batchDup).isSome = true :=
  ⟨batch_duplicate_locks_accepted.1 rawBatchDup "1" (by decide) (by decide) (by decide)
    (by decide) (by decide) (by decide) (by decide) (by decide) (by decide),
   batch_duplicate_locks_accepted.2 batchDup (by decide) (by decide) (by decide)
    (by decide) (by decide) (by decide) (by decide) (Or.inl (by decide))⟩

/-! ## C10 -/

theorem startsWith0x_append (t : String) : startsWith0x ("0x" ++ t) = true := by
  unfold startsWith0x
  cases t with
  | mk data => rfl

set_option maxRecDepth 1000000 in
/-- C10 counterexample: the two batches differ only in whether one lockTag
carries the `0x` prefix, yet their claim hashes differ: the sort comparator
parses the unprefixed spelling as decimal, which flips the commitment
order. -/
theorem lockTagSpelling_cex :
    lockBBare = { lockBPrefixed with lockTag := "000000000000000000000011" } ∧
    "0x" ++ lockBBare.lockTag = lockBPrefixed.lockTag ∧
    batchMixed = { batchPrefixed with commitments := [lockA, lockBBare] } ∧
    generateBatchClaimHash batchMixed ≠ generateBatchClaimHash batchPrefixed :=
  ⟨rfl, rfl, rfl, by decide⟩

/-- C10 amended: for a single-commitment batch the missing `0x` prefix is
prepended before ABI encoding, so the claim hash is invariant under the
spelling; with two or more commitments the comparator's decimal parse of an
unprefixed tag can reorder the sort and change the hash. -/
theorem generateBatchClaimHash_singleton (c : ValidatedBatchCompactMessage) (x : Lock)
    (hc : c.commitments = [x]) :
    generateBatchClaimHash c = batchHashFromSorted c.arbiter c.sponsor c.nonce
      c.expires c.witnessTypeString c.witnessHash [x] := by
  unfold generateBatchClaimHash
  rw [hc]
  rw [if_neg (by simp)]
  rfl

theorem lockTagSpelling_single (c : ValidatedBatchCompactMessage) (l : Lock) (t : String)
    (hc : c.commitments = [l]) (htag : l.lockTag = "0x" ++ t)
    (ht : startsWith0x t = false) :
    generateBatchClaimHash { c with commitments := [{ l with lockTag := t }] } =
      generateBatchClaimHash c := by
  have henc : encodeCommitmentBatch? { l with lockTag := t } = encodeCommitmentBatch? l := by
    unfold encodeCommitmentBatch?
    simp only [htag, ht, startsWith0x_append]
    simp
  rw [generateBatchClaimHash_singleton c l hc,
    generateBatchClaimHash_singleton { c with commitments := [{ l with lockTag := t }] }
      { l with lockTag := t } rfl]
  unfold batchHashFromSorted
  simp only [List.mapM_cons, List.mapM_nil, henc]
  rfl

/-- Witness for C10 (amended): dropping the `0x` prefix of a
single-commitment batch's lockTag leaves the claim hash unchanged. -/
theorem lockTagSpelling_single_witness :
    generateBatchClaimHash
        { batchSingle with
          commitments := [{ lockBPrefixed with lockTag := "000000000000000000000011" }] } =
      generateBatchClaimHash batchSingle :=
  lockTagSpelling_single batchSingle lockBPrefixed "000000000000000000000011" rfl rfl
    (by decide)

set_option maxRecDepth 1000000 in
/-- C3: `generateMultichainClaimHash` hashes the element list in the order
given — swapping the two (distinct) elements of a concrete multichain compact
changes the claim hash. -/
theorem multichain_element_order_sensitive :
    mcElemA ≠ mcElemB ∧
    mcBA = { mcAB with elements := [mcElemB, mcElemA] } ∧
    generateMultichainClaimHash mcAB 10 (some "uint256 minAmount") ≠
      generateMultichainClaimHash mcBA 10 (some "uint256 minAmount") :=
  ⟨by decide, rfl, by decide⟩

end Autocator
